import Mathlib

/-!
# Verification of the scrapnov chapter merge/resume/retry core

Shallow embedding of the pure core of `src/scrape.py` (class
`LightNovelScraper`): chapter records, the merge engine
(`merge_chapters`), the membership test (`is_chapter_exists`), the sort
pass (`sort_chapters` with its `chapter_key`), the content fetch retry
loop (`get_chapter_content_with_retry`), the per-chapter caller logic,
and the chapters payloads of the checkpoint and final save paths.

Modelling conventions:
* Python `dict` chapter records become a fixed structure of
  `Option String` fields (the extractor always populates every field,
  possibly with `None`); wall-clock timestamp fields (`scraped_at`,
  `content_scraped_at`) are omitted as they carry no information for
  these claims.
* Python truthiness of an optional string (`if chap.get('id')`) is
  `truthy`: `None` and the empty string are falsy.
* Python `float` values arising from `chapter_key` are modelled as exact
  rationals (`ℚ`), with `float('inf')` as `⊤` in `WithTop ℚ`; float
  rounding, `inf`/`nan` spellings, underscores in numeric literals and
  non-ASCII digits are not modelled.
* Code that raises an uncaught exception is modelled with `Except Unit`.
-/

/-- A chapter record as built by `extract_chapter_info`
(src/scrape.py:413-459).  All fields are optional strings; the
timestamp fields are omitted (wall clock). -/
structure Chapter where
  id : Option String := none
  number : Option String := none
  title : Option String := none
  url : Option String := none
  original_time : Option String := none
  novel_slug : Option String := none
  content : Option String := none
  error : Option String := none
deriving DecidableEq, Repr, Inhabited

/-- Python truthiness of an optional string: `None` and `""` are falsy. -/
def truthy : Option String → Bool
  | none => false
  | some s => !(s == "")

/-- Membership of `x` in the set
`{chap.get('id') for chap in existing_chapters if chap.get('id')}`
built by `merge_chapters` (src/scrape.py:525). -/
def id_known (existing_chapters : List Chapter) (x : Option String) : Bool :=
  existing_chapters.any (fun c => truthy c.id && c.id == x)

/-- Membership of `x` in the set
`{chap.get('number') for chap in existing_chapters if chap.get('number')}`
built by `merge_chapters` (src/scrape.py:526). -/
def number_known (existing_chapters : List Chapter) (x : Option String) : Bool :=
  existing_chapters.any (fun c => truthy c.number && c.number == x)

/-- `merge_chapters` (src/scrape.py:522-535): start from a copy of the
existing list, and append each new chapter unless its id is in the known
id set or its number is in the known number set.  Both sets are built
once from `existing_chapters` and are not updated while appending. -/
def merge_chapters (existing_chapters new_chapters : List Chapter) : List Chapter :=
  new_chapters.foldl
    (fun merged n =>
      if id_known existing_chapters n.id || number_known existing_chapters n.number then merged
      else merged ++ [n])
    existing_chapters

/-- `is_chapter_exists` (src/scrape.py:513-520): the new chapter exists
when some existing chapter has an equal `id` (plain `==`, so `None`
matches `None`) or an equal `(number, title)` pair. -/
def is_chapter_exists (existing_chapters : List Chapter) (new_chapter : Chapter) : Bool :=
  existing_chapters.any (fun e =>
    e.id == new_chapter.id ||
    (e.number == new_chapter.number && e.title == new_chapter.title))

/-- The identity rule as the spec states it (spec §3): primary key `id`
when present; fallback composite key `(number, title)` only when `id` is
absent.  Stated from the spec's words for comparison with
`is_chapter_exists`. -/
def spec_identity_known (existing_chapters : List Chapter) (new_chapter : Chapter) : Prop :=
  (∃ e ∈ existing_chapters, e.id ≠ none ∧ e.id = new_chapter.id) ∨
  (new_chapter.id = none ∧
    ∃ e ∈ existing_chapters, e.number = new_chapter.number ∧ e.title = new_chapter.title)

instance (E : List Chapter) (n : Chapter) : Decidable (spec_identity_known E n) := by
  unfold spec_identity_known
  infer_instance

/-- The per-page filtering of freshly extracted stubs
(src/scrape.py:292-294): only stubs failing `is_chapter_exists` are
queued as new. -/
def collect_new_stubs (existing_chapters page_chapters : List Chapter) : List Chapter :=
  page_chapters.filter (fun c => !(is_chapter_exists existing_chapters c))

/-! ## Numeric sort keys (`chapter_key` inside `sort_chapters`) -/

/-- Python `str.strip()` on a character list: drop whitespace from both
ends (Unicode whitespace beyond ASCII is not modelled). -/
def trimChars (cs : List Char) : List Char :=
  ((cs.dropWhile Char.isWhitespace).reverse.dropWhile Char.isWhitespace).reverse

/-- Numeric value of a run of decimal digit characters. -/
def digitsVal (cs : List Char) : Nat :=
  cs.foldl (fun a c => 10 * a + (c.toNat - 48)) 0

/-- `10 ^ n` as an integer, by structural recursion so that it reduces
in the kernel. -/
def pow10 : Nat → Int
  | 0 => 1
  | n + 1 => 10 * pow10 n

/-- An exact decimal value `man / 10 ^ exp`: the model of the Python
`float` values produced by `chapter_key` (float rounding is not
modelled; these parses of decimal literals are exact). -/
structure Dec where
  man : Int
  exp : Nat
deriving DecidableEq, Repr

/-- The rational value of a `Dec`. -/
def Dec.toQ (d : Dec) : ℚ := (d.man : ℚ) / (10 : ℚ) ^ d.exp

/-- Build the value `m / 10 ^ fracLen * 10 ^ e`. -/
def Dec.ofParts (m : Int) (fracLen : Nat) (e : Int) : Dec :=
  if 0 ≤ e - (fracLen : Int) then ⟨m * pow10 (e - (fracLen : Int)).toNat, 0⟩
  else ⟨m, (-(e - (fracLen : Int))).toNat⟩

/-- Optional leading sign of a numeric literal. -/
def parseSign : List Char → Int × List Char
  | '+' :: t => (1, t)
  | '-' :: t => (-1, t)
  | t => (1, t)

/-- Exponent tail of a `float` literal, after `e`/`E`: an optionally
signed digit run consuming the rest of the string. -/
def parseExpPart (cs : List Char) : Option Int :=
  let (sg, r) := parseSign cs
  let (ds, r2) := List.span Char.isDigit r
  if ds = [] ∨ r2 ≠ [] then none else some (sg * (digitsVal ds : Int))

/-- Mantissa continuation of a `float` literal: given sign, integer and
fraction digits, the remaining characters must be empty or an
exponent part. -/
def pyFloatTail (sg : Int) (ip fp rest : List Char) : Option Dec :=
  let m : Int := sg * (digitsVal (ip ++ fp) : Int)
  match rest with
  | [] => some (Dec.ofParts m fp.length 0)
  | 'e' :: r => (parseExpPart r).map (Dec.ofParts m fp.length)
  | 'E' :: r => (parseExpPart r).map (Dec.ofParts m fp.length)
  | _ => none

/-- Python `float(s)` on a character list (already stripped):
`[sign] (digits [. digits*] | . digits+) [(e|E) [sign] digits+]`.
Not modelled: `inf`/`nan` spellings, underscores between digits,
non-ASCII digits. -/
def pyFloatChars (cs : List Char) : Option Dec :=
  let (sg, r0) := parseSign cs
  let (ip, r1) := List.span Char.isDigit r0
  match r1 with
  | '.' :: r2 =>
    let (fp, r3) := List.span Char.isDigit r2
    if ip = [] ∧ fp = [] then none else pyFloatTail sg ip fp r3
  | _ => if ip = [] then none else pyFloatTail sg ip [] r1

/-- Python `float(s)` including the whitespace strip it performs. -/
def pyFloat? (s : String) : Option Dec :=
  pyFloatChars (trimChars s.data)

/-- Leftmost match of the regex `\d+\.?\d*` (src/scrape.py:506):
returns the integer digits and the fraction digits of the first
embedded numeric token, if any. -/
def firstNumToken : List Char → Option (List Char × List Char)
  | [] => none
  | c :: cs =>
    if c.isDigit then
      let (d1, r1) := List.span Char.isDigit (c :: cs)
      match r1 with
      | '.' :: r2 => some (d1, (List.span Char.isDigit r2).1)
      | _ => some (d1, [])
    else firstNumToken cs

/-- `chapter_key` (src/scrape.py:501-509).  `none` on the number field
models Python `None`: `float(None)` raises `TypeError`, which is caught,
but then `re.findall(pattern, None)` raises an uncaught `TypeError` —
modelled as `.error ()`.  Otherwise the key is `float(number)` when that
parses, else the first embedded numeric token, else `float('inf')`
(modelled as the `none` sort key, greater than every finite key). -/
def chapter_key (c : Chapter) : Except Unit (Option Dec) :=
  match c.number with
  | none => .error ()
  | some s =>
    match pyFloat? s with
    | some d => .ok (some d)
    | none =>
      match firstNumToken s.data with
      | some (d1, d2) => .ok (some ⟨(digitsVal (d1 ++ d2) : Int), d2.length⟩)
      | none => .ok none

/-- Whether `chapter_key` evaluates without raising. -/
def key_ok (c : Chapter) : Bool :=
  match chapter_key c with
  | .ok _ => true
  | .error _ => false

/-- The sort key of a chapter, defaulting to `+∞` (the default is never
reached on the chapters `sort_chapters` actually sorts). -/
def keyD (c : Chapter) : Option Dec :=
  match chapter_key c with
  | .ok k => k
  | .error _ => none

/-- Kernel-computable comparison of two exact decimals, by cross
multiplication with the positive denominators `10 ^ exp`. -/
def dec_le (a b : Dec) : Bool :=
  decide (a.man * pow10 b.exp ≤ b.man * pow10 a.exp)

/-- Comparison of sort keys; `none` is `float('inf')`, above every
finite key. -/
def key_le : Option Dec → Option Dec → Bool
  | _, none => true
  | none, some _ => false
  | some x, some y => dec_le x y

/-- The sort order on chapters used by the sort pass. -/
def keyLE (a b : Chapter) : Prop := key_le (keyD a) (keyD b) = true

instance : DecidableRel keyLE := fun a b => by
  unfold keyLE
  infer_instance

/-- `sort_chapters` (src/scrape.py:499-511): Python `sorted` with key
`chapter_key` — a stable sort, modelled by insertion sort (stable sorts
by the same key order agree extensionally).  `sorted` computes the key
of every element, so a `TypeError` from any one key aborts the whole
call: modelled as `.error ()`. -/
def sort_chapters (chapters : List Chapter) : Except Unit (List Chapter) :=
  if chapters.all key_ok then .ok (List.insertionSort keyLE chapters) else .error ()

/-! ## The rational semantics of the key order -/

/-- The sort key as an extended rational. -/
def keyQ : Option Dec → WithTop ℚ
  | none => ⊤
  | some d => (d.toQ : WithTop ℚ)

theorem pow10_cast (n : Nat) : ((pow10 n : Int) : ℚ) = (10 : ℚ) ^ n := by
  induction n with
  | zero => simp [pow10]
  | succ k ih => simp [pow10, pow_succ, ih]; ring

theorem dec_le_iff (a b : Dec) : dec_le a b = true ↔ a.toQ ≤ b.toQ := by
  have hpa : (0 : ℚ) < (10 : ℚ) ^ a.exp := by positivity
  have hpb : (0 : ℚ) < (10 : ℚ) ^ b.exp := by positivity
  rw [dec_le, decide_eq_true_iff, Dec.toQ, Dec.toQ, div_le_div_iff₀ hpa hpb]
  rw [← pow10_cast, ← pow10_cast]
  exact_mod_cast Iff.rfl

theorem key_le_iff (a b : Option Dec) : key_le a b = true ↔ keyQ a ≤ keyQ b := by
  match a, b with
  | _, none =>
    simp [key_le, keyQ]
  | none, some y =>
    simp [key_le, keyQ]
  | some x, some y =>
    simp only [key_le, keyQ, WithTop.coe_le_coe]
    exact dec_le_iff x y

instance : IsTotal Chapter keyLE :=
  ⟨fun a b => by
    rw [keyLE, keyLE, key_le_iff, key_le_iff]
    exact le_total _ _⟩

instance : IsTrans Chapter keyLE :=
  ⟨fun a b c hab hbc => by
    rw [keyLE, key_le_iff] at hab hbc ⊢
    exact le_trans hab hbc⟩

/-! ## Content fetch retry (`get_chapter_content_with_retry`) -/

/-- Outcome of one fetch attempt for a chapter URL: the transport layer
raises, or the page has no `.chapter-text` element, or a body text is
extracted. -/
inductive AttemptOutcome where
  | transportError
  | noElement
  | gotContent (s : String)

/-- The acceptance test `content and len(content.strip()) > 10`
(src/scrape.py:482). -/
def content_ok (s : String) : Bool :=
  (!(s == "")) && decide (10 < (trimChars s.data).length)

/-- Observable behaviour of one call to
`get_chapter_content_with_retry`: the returned content, the number of
attempts executed, and the backoff waits performed (in order). -/
structure RetryResult where
  result : Option String
  attemptsMade : Nat
  waits : List Nat
deriving DecidableEq, Repr

/-- The retry loop body (src/scrape.py:467-496), recursing over the
remaining iterations of `for attempt in range(max_retries)`.  `i` is the
0-based attempt index.  A transport error sleeps `delay * (attempt + 1)`
unless the attempt is the last; a missing content element or a rejected
body falls through to the next attempt with no sleep (the `time.sleep`
only occurs in the `except` branch). -/
def retryAux (f : Nat → AttemptOutcome) (delay : Nat) : Nat → Nat → RetryResult
  | _, 0 => ⟨none, 0, []⟩
  | i, fuel + 1 =>
    match f i with
    | .gotContent s =>
      if content_ok s then ⟨some s, 1, []⟩
      else
        let r := retryAux f delay (i + 1) fuel
        ⟨r.result, r.attemptsMade + 1, r.waits⟩
    | .noElement =>
      let r := retryAux f delay (i + 1) fuel
      ⟨r.result, r.attemptsMade + 1, r.waits⟩
    | .transportError =>
      if fuel = 0 then ⟨none, 1, []⟩
      else
        let r := retryAux f delay (i + 1) fuel
        ⟨r.result, r.attemptsMade + 1, delay * (i + 1) :: r.waits⟩

/-- `get_chapter_content_with_retry` (src/scrape.py:465-497), with the
environment's attempt outcomes supplied as `f`. -/
def get_chapter_content_with_retry (f : Nat → AttemptOutcome) (max_retries delay : Nat) :
    RetryResult :=
  retryAux f delay 0 max_retries

/-- An attempt that does not produce accepted content. -/
def attempt_fails : AttemptOutcome → Prop
  | .transportError => True
  | .noElement => True
  | .gotContent s => content_ok s = false

/-- A failing attempt that is not a transport error: missing content
element, or extracted content rejected as too short. -/
def non_transport_failure : AttemptOutcome → Prop
  | .transportError => False
  | .noElement => True
  | .gotContent s => content_ok s = false

/-- The caller's per-chapter handling of the fetch result
(src/scrape.py:324-338): with a chapter URL present, the content is
stored; a falsy result is recorded as `content = None`,
`error = "Failed to fetch content"`; without a URL the chapter gets
`error = "No chapter URL available"`.  Timestamp writes are omitted. -/
def process_chapter (c : Chapter) (fetch_result : Option String) : Chapter :=
  if truthy c.url then
    if truthy fetch_result then { c with content := fetch_result }
    else { c with content := none, error := some "Failed to fetch content" }
  else { c with content := none, error := some "No chapter URL available" }

theorem retryAux_congr (f g : Nat → AttemptOutcome) (d : Nat) :
    ∀ (fuel i : Nat), (∀ j, i ≤ j → j < i + fuel → f j = g j) →
      retryAux f d i fuel = retryAux g d i fuel := by
  intro fuel
  induction fuel with
  | zero => intro i _; rfl
  | succ k ih =>
    intro i h
    have hi : f i = g i := h i (Nat.le_refl i) (Nat.lt_add_of_pos_right (Nat.succ_pos k))
    have hrec : retryAux f d (i + 1) k = retryAux g d (i + 1) k := by
      refine ih (i + 1) (fun j hj hj2 => h j (Nat.le_of_succ_le hj) ?_)
      omega
    simp only [retryAux, hi, hrec]

theorem retryAux_allfail (f : Nat → AttemptOutcome) (d : Nat) :
    ∀ (fuel i : Nat), (∀ j, i ≤ j → j < i + fuel → attempt_fails (f j)) →
      (retryAux f d i fuel).result = none ∧ (retryAux f d i fuel).attemptsMade = fuel := by
  intro fuel
  induction fuel with
  | zero => intro i _; exact ⟨rfl, rfl⟩
  | succ k ih =>
    intro i h
    have hi : attempt_fails (f i) := h i (Nat.le_refl i) (by omega)
    have hrec := ih (i + 1) (fun j hj hj2 => h j (by omega) (by omega))
    simp only [retryAux]
    match hfi : f i with
    | .gotContent s =>
      rw [hfi] at hi
      have : content_ok s = false := hi
      simp [this, hrec.1, hrec.2]
    | .noElement => simp [hrec.1, hrec.2]
    | .transportError =>
      by_cases hk : k = 0
      · simp [hk]
      · simp [hk, hrec.1, hrec.2]

theorem retryAux_nofail_waits (f : Nat → AttemptOutcome) (d : Nat) :
    ∀ (fuel i : Nat), (∀ j, i ≤ j → j < i + fuel → non_transport_failure (f j)) →
      (retryAux f d i fuel).waits = [] := by
  intro fuel
  induction fuel with
  | zero => intro i _; rfl
  | succ k ih =>
    intro i h
    have hi : non_transport_failure (f i) := h i (Nat.le_refl i) (by omega)
    have hrec := ih (i + 1) (fun j hj hj2 => h j (by omega) (by omega))
    simp only [retryAux]
    match hfi : f i with
    | .gotContent s =>
      rw [hfi] at hi
      have : content_ok s = false := hi
      simp [this, hrec]
    | .noElement => simp [hrec]
    | .transportError => rw [hfi] at hi; exact absurd hi (by simp [non_transport_failure])

/-! ## Merge engine lemmas -/

theorem merge_chapters_eq_append (E N : List Chapter) :
    merge_chapters E N =
      E ++ N.filter (fun n => !(id_known E n.id || number_known E n.number)) := by
  suffices h : ∀ (M : List Chapter) (acc : List Chapter),
      M.foldl
        (fun merged n =>
          if id_known E n.id || number_known E n.number then merged else merged ++ [n])
        acc =
        acc ++ M.filter (fun n => !(id_known E n.id || number_known E n.number)) by
    exact h N E
  intro M
  induction M with
  | nil => intro acc; simp
  | cons n t ih =>
    intro acc
    rw [List.foldl_cons, List.filter_cons]
    by_cases hc : (id_known E n.id || number_known E n.number) = true
    · rw [if_pos hc, ih, hc]
      simp
    · rw [if_neg hc, ih]
      rw [Bool.not_eq_true] at hc
      rw [hc]
      simp

theorem id_known_append (E l : List Chapter) (x : Option String) :
    id_known (E ++ l) x = (id_known E x || id_known l x) := by
  simp [id_known, List.any_append]

theorem number_known_append (E l : List Chapter) (x : Option String) :
    number_known (E ++ l) x = (number_known E x || number_known l x) := by
  simp [number_known, List.any_append]

theorem id_known_of_mem {l : List Chapter} {n : Chapter} (hn : n ∈ l)
    (ht : truthy n.id = true) : id_known l n.id = true := by
  rw [id_known, List.any_eq_true]
  exact ⟨n, hn, by simp [ht]⟩

theorem number_known_of_mem {l : List Chapter} {n : Chapter} (hn : n ∈ l)
    (ht : truthy n.number = true) : number_known l n.number = true := by
  rw [number_known, List.any_eq_true]
  exact ⟨n, hn, by simp [ht]⟩

/-! ## Identity keys (spec §3) -/

/-- Two chapter records share an identity key (spec §3): equal non-null
`id`, or — both id-less — equal `(number, title)`. -/
def sharesKey (a b : Chapter) : Prop :=
  (a.id ≠ none ∧ a.id = b.id) ∨
  (a.id = none ∧ b.id = none ∧ a.number = b.number ∧ a.title = b.title)

instance (a b : Chapter) : Decidable (sharesKey a b) := by
  unfold sharesKey
  infer_instance

/-- The spec §3 invariant: within one chapter set, no two records share
the same identity key. -/
def UniqueKeys (l : List Chapter) : Prop :=
  List.Pairwise (fun a b => ¬ sharesKey a b) l

instance (l : List Chapter) : Decidable (UniqueKeys l) := by
  unfold UniqueKeys
  infer_instance

/-! ## Persisted per-novel payloads -/

/-- The part of an on-disk per-novel dataset the claims need: its
`chapters` sequence. -/
structure NovelDataset where
  chapters : List Chapter

/-- The `chapters` payload written by `save_partial_novel_data`
(src/scrape.py:365-395): `merge_chapters` of the existing chapters
(empty when no dataset exists) with the new chapters — written with no
sort pass. -/
def checkpoint_saved_chapters (existing_data : Option NovelDataset)
    (new_chapters : List Chapter) : List Chapter :=
  merge_chapters
    (match existing_data with
     | some d => d.chapters
     | none => [])
    new_chapters

/-- The `chapters` payload written by the final save
(src/scrape.py:358-363 computes it, 582-607 writes it):
`sort_chapters` applied to the merge of existing and new chapters. -/
def final_saved_chapters (existing_chapters new_chapters : List Chapter) :
    Except Unit (List Chapter) :=
  sort_chapters (merge_chapters existing_chapters new_chapters)

/-! ## Stability of the sort pass -/

theorem filter_orderedInsert (a : Chapter) (l : List Chapter) (k : Option Dec) :
    (List.orderedInsert keyLE a l).filter (fun c => decide (keyD c = k)) =
      if keyD a = k then a :: l.filter (fun c => decide (keyD c = k))
      else l.filter (fun c => decide (keyD c = k)) := by
  induction l with
  | nil =>
    by_cases h : keyD a = k <;> simp [List.orderedInsert, h]
  | cons b t ih =>
    rw [List.orderedInsert]
    by_cases hab : keyLE a b
    · rw [if_pos hab, List.filter_cons]
      by_cases h : keyD a = k <;> simp [h]
    · rw [if_neg hab, List.filter_cons]
      have hbk : ∀ hk : keyD a = k, ¬ (keyD b = k) := by
        intro hk hbk
        apply hab
        rw [keyLE, key_le_iff, hbk, hk]
      by_cases h : keyD a = k
      · have hb : ¬ (keyD b = k) := hbk h
        simp [hb, ih, h]
      · by_cases hb : keyD b = k <;> simp [hb, ih, h]

theorem filter_insertionSort (l : List Chapter) (k : Option Dec) :
    (List.insertionSort keyLE l).filter (fun c => decide (keyD c = k)) =
      l.filter (fun c => decide (keyD c = k)) := by
  induction l with
  | nil => rfl
  | cons a t ih =>
    rw [List.insertionSort, filter_orderedInsert, List.filter_cons]
    by_cases h : keyD a = k <;> simp [h, ih]

/-- A chapter whose `number` is a string always has a non-raising key. -/
theorem key_ok_of_number_some (c : Chapter) (s : String) (h : c.number = some s) :
    key_ok c = true := by
  simp only [key_ok, chapter_key, h]
  cases hp : pyFloat? s
  · simp only [hp]
    cases ht : firstNumToken s.data
    · simp [ht]
    · rename_i p
      cases p
      simp [ht]
  · simp [hp]

/-! ## Concrete records used in counterexamples and witnesses -/

/-- A chapter stub carrying only a number string. -/
def chNum (n : String) : Chapter := { number := some n }

/-- A record whose `id` and `number` are both null (the extractor
produces these when the markup exposes neither a usable chapter URL nor
a number element). -/
def cNullNull : Chapter := { title := some "T" }

/-- Existing id-less record with number `"1"` and title `"A"`. -/
def eNull1A : Chapter := { number := some "1", title := some "A" }

/-- Incoming id-less stub with number `"2"` and title `"B"`. -/
def nNull2B : Chapter := { number := some "2", title := some "B" }

/-- Incoming record with id `"c1"` and number `"1"`. -/
def dupA : Chapter := { id := some "c1", number := some "1" }

/-- A second incoming record with the same id `"c1"` but number `"2"`. -/
def dupB : Chapter := { id := some "c1", number := some "2" }

/-- An existing record with a truthy id, for witnesses. -/
def eU : Chapter := { id := some "e1", number := some "1", title := some "A" }

/-- An incoming id-less record with a truthy number, for witnesses. -/
def nU : Chapter := { id := none, number := some "2", title := some "B" }

/-- A permanently failed record as a prior run leaves it: content null,
error marker set. -/
def failedRec : Chapter :=
  { id := some "ch-7", number := some "7", title := some "Lost",
    url := some "https://site/novel/x/chapter/ch-7",
    content := none, error := some "Failed to fetch content" }

/-- A freshly extracted stub for the same chapter as `failedRec`. -/
def stub7 : Chapter :=
  { id := some "ch-7", number := some "7", title := some "Lost",
    url := some "https://site/novel/x/chapter/ch-7" }

/-- A chapter stub with a URL, for the retry-exhaustion witness. -/
def urlChapter : Chapter :=
  { id := some "c9", number := some "9", url := some "https://site/novel/x/chapter/c9" }

/-- The spec §8 sort example: numbers `["3", "1", "2.5", "abc 10", "xyz"]`. -/
def specExample : List Chapter :=
  [chNum "3", chNum "1", chNum "2.5", chNum "abc 10", chNum "xyz"]

/-! ## C1: merge idempotence -/

/-- C1 (counterexample). Merge idempotence fails as stated: re-merging
an incoming batch containing a record whose `id` and `number` are both
null appends that record a second time, duplicating it, because both
known-value sets ignore falsy fields. -/
theorem merge_reMerge_duplicates_null_record :
    merge_chapters (merge_chapters [] [cNullNull]) [cNullNull] ≠
      merge_chapters [] [cNullNull] := by decide

/-- C1 (amended). Merge idempotence
`merge_chapters (merge_chapters E N) N = merge_chapters E N` holds for
every existing list `E` and every incoming list `N` whose records each
carry a truthy (non-null, non-empty) `id` or a truthy `number`;
re-merging such a batch produces no duplicates. -/
theorem merge_idempotent_of_identifiable (E N : List Chapter)
    (h : ∀ n ∈ N, truthy n.id = true ∨ truthy n.number = true) :
    merge_chapters (merge_chapters E N) N = merge_chapters E N := by
  have hfilter :
      N.filter (fun n => !(id_known (merge_chapters E N) n.id ||
        number_known (merge_chapters E N) n.number)) = [] := by
    rw [List.filter_eq_nil_iff]
    intro n hn
    have key : (id_known (merge_chapters E N) n.id ||
        number_known (merge_chapters E N) n.number) = true := by
      by_cases hskip : (id_known E n.id || number_known E n.number) = true
      · rcases (Bool.or_eq_true _ _).mp hskip with h1 | h2
        · rw [merge_chapters_eq_append, id_known_append, h1]
          simp
        · rw [merge_chapters_eq_append, number_known_append, h2]
          simp
      · have hskip' : (id_known E n.id || number_known E n.number) = false := by
          revert hskip
          cases id_known E n.id || number_known E n.number <;> simp
        have hnM : n ∈ merge_chapters E N := by
          rw [merge_chapters_eq_append]
          exact List.mem_append_right _ (List.mem_filter.mpr ⟨hn, by simp [hskip']⟩)
        rcases h n hn with ht | ht
        · rw [Bool.or_eq_true]
          exact Or.inl (id_known_of_mem hnM ht)
        · rw [Bool.or_eq_true]
          exact Or.inr (number_known_of_mem hnM ht)
    simp [key]
  rw [merge_chapters_eq_append (merge_chapters E N) N, hfilter]
  simp

/-- C1 (witness). The amended idempotence at a concrete input: an
existing record and two identifiable incoming records, one new and one
already known by number. -/
theorem merge_idempotent_witness :
    merge_chapters (merge_chapters [eU] [dupA, nU]) [dupA, nU] =
      merge_chapters [eU] [dupA, nU] :=
  merge_idempotent_of_identifiable [eU] [dupA, nU] (by decide)

/-! ## C2: the membership rule of the chapter collector -/

/-- C2 (counterexample). `is_chapter_exists` reports a stub with a null
id as already known merely because an existing record also has a null
id (`None == None` in Python), even though neither its number nor its
title matches — contradicting the spec's identity rule. -/
theorem chapter_exists_matches_on_null_ids :
    is_chapter_exists [eNull1A] nNull2B = true ∧
      ¬ spec_identity_known [eNull1A] nNull2B := by
  exact ⟨rfl, by decide⟩

/-- C2 (amended). `is_chapter_exists` reports a stub as known exactly
when some existing record has an equal `id` — null ids comparing equal
to each other — or matches on both `number` and `title`; the composite
fallback applies regardless of whether the stub's id is present. -/
theorem chapter_exists_iff (E : List Chapter) (n : Chapter) :
    is_chapter_exists E n = true ↔
      ∃ e ∈ E, e.id = n.id ∨ (e.number = n.number ∧ e.title = n.title) := by
  simp [is_chapter_exists, List.any_eq_true]

/-! ## C3: sorted-at-rest -/

/-- C3 (counterexample). An intermediate checkpoint save persists the
merge result with no sort pass: with no existing dataset and new
chapters numbered `"2"` then `"1"`, the written `chapters` payload is
not sorted by the numeric chapter-order key. -/
theorem checkpoint_save_not_sorted :
    ¬ List.Sorted keyLE (checkpoint_saved_chapters none [chNum "2", chNum "1"]) := by
  decide

/-- C3 (amended). Only the final save is sorted at rest: whenever the
final save path produces a chapters payload (the sort pass does not
raise), that payload is sorted by the numeric chapter-order key.
Checkpoint saves persist the unsorted merge result. -/
theorem final_save_sorted (E N l : List Chapter)
    (h : final_saved_chapters E N = .ok l) : List.Sorted keyLE l := by
  rw [final_saved_chapters, sort_chapters] at h
  by_cases hall : (merge_chapters E N).all key_ok = true
  · rw [if_pos hall] at h
    injection h with h2
    rw [← h2]
    exact List.sorted_insertionSort keyLE _
  · rw [if_neg hall] at h
    exact Except.noConfusion h

/-- C3 (witness). The final save of two new chapters numbered `"2"`
then `"1"` is the sorted payload `["1", "2"]`. -/
theorem final_save_sorted_witness :
    List.Sorted keyLE [chNum "1", chNum "2"] :=
  final_save_sorted [] [chNum "2", chNum "1"] [chNum "1", chNum "2"] (by rfl)

/-! ## C4: backoff policy -/

/-- C4 (counterexample). A run whose three attempts all fail with a
missing content element performs no waits at all — not the
`delay * attempt_index` waits (here `[2, 4]`) the claim requires after
the first and second failed attempts. -/
theorem no_backoff_on_missing_element :
    (get_chapter_content_with_retry (fun _ => .noElement) 3 2).waits = [] ∧
    (get_chapter_content_with_retry (fun _ => .noElement) 3 2).result = none ∧
    (get_chapter_content_with_retry (fun _ => .noElement) 3 2).waits ≠ [2 * 1, 2 * 2] := by
  refine ⟨rfl, rfl, by decide⟩

/-- C4 (amended). The fetcher waits `delay * attempt_index` after a
failed attempt (other than the last) only when the failure is a
transport error: three transport-error attempts wait
`[delay, 2 * delay]`, while failures by missing content element or
too-short content proceed to the next attempt with no wait. -/
theorem retry_waits_only_after_transport_errors (f g : Nat → AttemptOutcome) (delay : Nat)
    (hf : ∀ i, i < 3 → f i = .transportError)
    (hg : ∀ i, i < 3 → non_transport_failure (g i)) :
    (get_chapter_content_with_retry f 3 delay).waits = [delay * 1, delay * 2] ∧
    (get_chapter_content_with_retry g 3 delay).waits = [] := by
  constructor
  · have hcongr : get_chapter_content_with_retry f 3 delay =
        get_chapter_content_with_retry (fun _ => .transportError) 3 delay := by
      rw [get_chapter_content_with_retry, get_chapter_content_with_retry]
      exact retryAux_congr f _ delay 3 0 (fun j _ hj => hf j (by omega))
    rw [hcongr]
    rfl
  · exact retryAux_nofail_waits g delay 3 0 (fun j _ hj => hg j (by omega))

/-- C4 (witness). The amended backoff behaviour at `delay = 5`:
transport failures wait `[5, 10]`, element-missing failures wait
nothing. -/
theorem retry_waits_witness :
    (get_chapter_content_with_retry (fun _ => .transportError) 3 5).waits = [5 * 1, 5 * 2] ∧
    (get_chapter_content_with_retry (fun _ => .noElement) 3 5).waits = [] :=
  retry_waits_only_after_transport_errors (fun _ => .transportError) (fun _ => .noElement) 5
    (fun _ _ => rfl) (fun _ _ => trivial)

/-! ## C5: content-too-short boundary -/

/-- C5 (counterexample). A body whose whitespace-trimmed length is
exactly 10 characters is rejected (the code requires strictly more than
10), causing retries to exhaust with no content — the claim says it
would be accepted and returned. -/
theorem exact_ten_char_content_rejected :
    (trimChars "abcdefghij".data).length = 10 ∧
    (get_chapter_content_with_retry (fun _ => .gotContent "abcdefghij") 3 1).result = none := by
  exact ⟨rfl, rfl⟩

/-- C5 (amended). An extracted body is accepted exactly when it is
non-empty and its whitespace-trimmed length is at least 11; otherwise —
including a trimmed length of exactly 10 — it is treated as a failure,
triggering retry and, on exhaustion, no content. -/
theorem content_length_boundary (s : String) (delay : Nat) :
    (content_ok s = true ↔ (¬ s = "" ∧ 11 ≤ (trimChars s.data).length)) ∧
    get_chapter_content_with_retry (fun _ => .gotContent s) 3 delay =
      (if content_ok s then ⟨some s, 1, []⟩ else ⟨none, 3, []⟩) := by
  constructor
  · rw [show ((11:Nat) ≤ (trimChars s.data).length ↔ 10 < (trimChars s.data).length) from
      by omega]
    simp [content_ok]
  · by_cases h : content_ok s = true
    · rw [if_pos h]
      unfold get_chapter_content_with_retry
      have hstep : retryAux (fun _ => AttemptOutcome.gotContent s) delay 0 3 =
          if content_ok s then ⟨some s, 1, []⟩
          else
            (let r := retryAux (fun _ => AttemptOutcome.gotContent s) delay 1 2
             ⟨r.result, r.attemptsMade + 1, r.waits⟩) := rfl
      rw [hstep, if_pos h]
    · rw [if_neg h]
      have hbad : content_ok s = false := by
        revert h
        cases content_ok s <;> simp
      have hfails : ∀ j, 0 ≤ j → j < 0 + 3 →
          attempt_fails ((fun _ => AttemptOutcome.gotContent s) j) :=
        fun _ _ _ => hbad
      obtain ⟨hres, hatt⟩ := retryAux_allfail (fun _ => .gotContent s) delay 3 0 hfails
      have hw := retryAux_nofail_waits (fun _ => .gotContent s) delay 3 0
        (fun _ _ _ => hbad)
      unfold get_chapter_content_with_retry
      have heta : retryAux (fun _ => AttemptOutcome.gotContent s) delay 0 3 =
          ⟨(retryAux (fun _ => AttemptOutcome.gotContent s) delay 0 3).result,
           (retryAux (fun _ => AttemptOutcome.gotContent s) delay 0 3).attemptsMade,
           (retryAux (fun _ => AttemptOutcome.gotContent s) delay 0 3).waits⟩ := rfl
      rw [heta, hres, hatt, hw]

/-! ## C7: retry exhaustion is contained -/

/-- C7 (confirmed). When all attempts for a chapter URL fail, exactly 3
attempts are made, the loop behaviour is independent of any 4th-attempt
outcome (no 4th attempt occurs), the fetcher returns no content, and the
caller records `content = none` and `error = "Failed to fetch content"`
on the chapter record rather than aborting. -/
theorem retry_exhaustion_contained (f : Nat → AttemptOutcome) (delay : Nat) (c : Chapter)
    (hfail : ∀ i, i < 3 → attempt_fails (f i)) (hurl : truthy c.url = true) :
    (get_chapter_content_with_retry f 3 delay).result = none ∧
    (get_chapter_content_with_retry f 3 delay).attemptsMade = 3 ∧
    (∀ g, (∀ i, i < 3 → g i = f i) →
      get_chapter_content_with_retry g 3 delay = get_chapter_content_with_retry f 3 delay) ∧
    (process_chapter c (get_chapter_content_with_retry f 3 delay).result).content = none ∧
    (process_chapter c (get_chapter_content_with_retry f 3 delay).result).error =
      some "Failed to fetch content" := by
  obtain ⟨hres, hatt⟩ := retryAux_allfail f delay 3 0 (fun j _ hj => hfail j (by omega))
  refine ⟨hres, hatt, ?_, ?_, ?_⟩
  · intro g hg
    rw [get_chapter_content_with_retry, get_chapter_content_with_retry]
    exact retryAux_congr g f delay 3 0 (fun j _ hj => hg j (by omega))
  · rw [show (get_chapter_content_with_retry f 3 delay).result = none from hres]
    simp [process_chapter, hurl, show truthy none = false from rfl]
  · rw [show (get_chapter_content_with_retry f 3 delay).result = none from hres]
    simp [process_chapter, hurl, show truthy none = false from rfl]

/-- C7 (witness). Retry exhaustion at a concrete chapter: three
transport errors yield no content, 3 attempts, insensitivity to later
attempts, and the failure marker on the record. -/
theorem retry_exhaustion_witness :
    (get_chapter_content_with_retry (fun _ => .transportError) 3 2).result = none ∧
    (get_chapter_content_with_retry (fun _ => .transportError) 3 2).attemptsMade = 3 ∧
    (∀ g, (∀ i, i < 3 → g i = (fun _ => AttemptOutcome.transportError) i) →
      get_chapter_content_with_retry g 3 2 =
        get_chapter_content_with_retry (fun _ => .transportError) 3 2) ∧
    (process_chapter urlChapter
      (get_chapter_content_with_retry (fun _ => .transportError) 3 2).result).content = none ∧
    (process_chapter urlChapter
      (get_chapter_content_with_retry (fun _ => .transportError) 3 2).result).error =
      some "Failed to fetch content" :=
  retry_exhaustion_contained (fun _ => .transportError) 2 urlChapter
    (fun _ _ => trivial) rfl

/-! ## C6: identity-key uniqueness under merge -/

/-- C6 (counterexample). Merging into an existing list with unique
identity keys can produce duplicates: two incoming records sharing the
non-null id `"c1"` are both appended, because the known-id set is built
from the existing list only and never updated while appending. -/
theorem merge_duplicate_incoming_ids :
    UniqueKeys ([] : List Chapter) ∧
      ¬ UniqueKeys (merge_chapters [] [dupA, dupB]) := by
  exact ⟨by decide, by decide⟩

/-- C6 (amended). Identity-key uniqueness is preserved by merge under
the preconditions the code actually needs: the existing list has unique
keys and only null-or-truthy ids, and the incoming records have pairwise
distinct identity keys and truthy numbers. -/
theorem merge_preserves_unique_keys (E N : List Chapter)
    (hE : UniqueKeys E)
    (hN : List.Pairwise (fun a b => ¬ sharesKey a b) N)
    (hnum : ∀ n ∈ N, truthy n.number = true)
    (hid : ∀ c ∈ E, c.id = none ∨ truthy c.id = true) :
    UniqueKeys (merge_chapters E N) := by
  rw [merge_chapters_eq_append, UniqueKeys, List.pairwise_append]
  refine ⟨hE, List.Pairwise.filter _ hN, ?_⟩
  intro a ha b hb
  rcases List.mem_filter.mp hb with ⟨hbN, hbKeep⟩
  have hkeep : id_known E b.id = false ∧ number_known E b.number = false := by
    revert hbKeep
    cases h1 : id_known E b.id <;> cases h2 : number_known E b.number <;> simp
  intro hshare
  rcases hshare with ⟨hane, haid⟩ | ⟨_, _, hnum_eq, _⟩
  · rcases hid a ha with h0 | ht
    · exact hane h0
    · have ht' : truthy b.id = true := haid ▸ ht
      have : id_known E b.id = true := by
        rw [id_known, List.any_eq_true]
        exact ⟨a, ha, by simp [haid, ht']⟩
      rw [hkeep.1] at this
      exact Bool.false_ne_true this
  · have htb : truthy b.number = true := hnum b hbN
    have hta : truthy a.number = true := by rw [hnum_eq]; exact htb
    have : number_known E b.number = true := by
      rw [number_known, List.any_eq_true]
      exact ⟨a, ha, by simp [hnum_eq, htb]⟩
    rw [hkeep.2] at this
    exact Bool.false_ne_true this

/-- C6 (witness). The amended preservation at a concrete input: one
existing keyed record, one incoming id-less record with a fresh truthy
number. -/
theorem merge_unique_keys_witness :
    UniqueKeys (merge_chapters [eU] [nU]) :=
  merge_preserves_unique_keys [eU] [nU] (by decide) (by decide) (by decide) (by decide)

/-! ## C8: totality and key rule of the sort pass -/

/-- C8 (counterexample). The sort pass is not total: a record whose
`number` is null makes `chapter_key` raise an uncaught `TypeError`
(`re.findall` on `None`), so `sort_chapters` fails instead of returning
a result. -/
theorem sort_raises_on_null_number :
    sort_chapters [{ number := none }] = .error () := by
  exact rfl

/-- C8 (amended). On every list of records whose `number` fields are
non-null strings, `sort_chapters` succeeds and returns a permutation of
its input sorted by the key order `keyLE` (number parsed as a number,
else first embedded numeric token, else `+∞`), and the sort is stable:
each key class keeps its prior relative order. -/
theorem sort_total_on_nonnull_numbers (l : List Chapter)
    (h : ∀ c ∈ l, c.number ≠ none) :
    ∃ l', sort_chapters l = .ok l' ∧ List.Sorted keyLE l' ∧ l'.Perm l ∧
      ∀ k : Option Dec,
        l'.filter (fun c => decide (keyD c = k)) = l.filter (fun c => decide (keyD c = k)) := by
  have hall : l.all key_ok = true := by
    rw [List.all_eq_true]
    intro c hc
    cases hcn : c.number with
    | none => exact absurd hcn (h c hc)
    | some s => exact key_ok_of_number_some c s hcn
  refine ⟨List.insertionSort keyLE l, ?_, ?_, ?_, ?_⟩
  · rw [sort_chapters, if_pos hall]
  · exact List.sorted_insertionSort keyLE l
  · exact List.perm_insertionSort keyLE l
  · exact fun k => filter_insertionSort l k

/-- C8 (witness). The spec §8 example: numbers
`["3", "1", "2.5", "abc 10", "xyz"]` sort successfully to the order
`1, 2.5, 3, 10, xyz`. -/
theorem sort_spec_example_witness :
    (∃ l', sort_chapters specExample = .ok l' ∧ List.Sorted keyLE l' ∧
        l'.Perm specExample ∧
        ∀ k : Option Dec,
          l'.filter (fun c => decide (keyD c = k)) =
            specExample.filter (fun c => decide (keyD c = k))) ∧
    sort_chapters specExample =
      .ok [chNum "1", chNum "2.5", chNum "3", chNum "abc 10", chNum "xyz"] :=
  ⟨sort_total_on_nonnull_numbers specExample (by decide), by rfl⟩

/-! ## C9: merge is first-write-wins over a preserved prefix -/

/-- C9 (confirmed). `merge_chapters E N` is `E` unchanged and in order,
followed by exactly those records of `N` whose id is not among the
truthy (non-null, non-empty) ids of `E` and whose number is not among
the truthy numbers of `E`; in particular an incoming record matching an
existing id is dropped entirely, whatever content it carries. -/
theorem merge_first_write_wins (E N : List Chapter) :
    merge_chapters E N =
      E ++ N.filter (fun n =>
        decide ((∀ c ∈ E, truthy c.id = true → ¬ c.id = n.id) ∧
          (∀ c ∈ E, truthy c.number = true → ¬ c.number = n.number))) := by
  rw [merge_chapters_eq_append]
  congr 1
  apply List.filter_congr
  intro n _
  by_cases hk : (id_known E n.id || number_known E n.number) = true
  · rw [hk, show (!true) = false from rfl]
    symm
    rw [decide_eq_false_iff_not]
    intro ⟨h1, h2⟩
    rcases (Bool.or_eq_true _ _).mp hk with hi | hn
    · rw [id_known, List.any_eq_true] at hi
      obtain ⟨c, hc, hcc⟩ := hi
      rw [Bool.and_eq_true] at hcc
      rcases hcc with ⟨ht, heq⟩
      exact h1 c hc ht (by exact_mod_cast beq_iff_eq.mp heq)
    · rw [number_known, List.any_eq_true] at hn
      obtain ⟨c, hc, hcc⟩ := hn
      rw [Bool.and_eq_true] at hcc
      rcases hcc with ⟨ht, heq⟩
      exact h2 c hc ht (by exact_mod_cast beq_iff_eq.mp heq)
  · have hk' : (id_known E n.id || number_known E n.number) = false := by
      revert hk
      cases id_known E n.id || number_known E n.number <;> simp
    rw [hk']
    symm
    rw [show (!false) = true from rfl, decide_eq_true_eq]
    rcases Bool.or_eq_false_iff.mp hk' with ⟨hif, hnf⟩
    constructor
    · intro c hc ht heq
      have ht' : truthy n.id = true := heq ▸ ht
      have : id_known E n.id = true := by
        rw [id_known, List.any_eq_true]
        exact ⟨c, hc, by simp [heq, ht']⟩
      rw [hif] at this
      exact Bool.false_ne_true this
    · intro c hc ht heq
      have ht' : truthy n.number = true := heq ▸ ht
      have : number_known E n.number = true := by
        rw [number_known, List.any_eq_true]
        exact ⟨c, hc, by simp [heq, ht']⟩
      rw [hnf] at this
      exact Bool.false_ne_true this

/-! ## C10: failed chapters are never re-queued -/

/-- C10 (confirmed). Any stub sharing its `id` with some record of the
loaded existing set — in particular a record left by a permanently
failed fetch, with null content and the error marker — fails the
membership test and is never queued by the collector. -/
theorem failed_chapters_not_requeued (existing page : List Chapter) (c e : Chapter)
    (he : e ∈ existing) (hid : e.id = c.id) :
    c ∉ collect_new_stubs existing page := by
  intro hmem
  rcases List.mem_filter.mp hmem with ⟨_, hpred⟩
  have hex : is_chapter_exists existing c = true := by
    rw [is_chapter_exists, List.any_eq_true]
    exact ⟨e, he, by simp [hid]⟩
  rw [hex] at hpred
  exact Bool.false_ne_true hpred

/-- C10 (witness). A stub for a chapter whose previous fetch permanently
failed (content null, error marker set) is not re-queued. -/
theorem failed_chapters_not_requeued_witness :
    stub7 ∉ collect_new_stubs [failedRec] [stub7] :=
  failed_chapters_not_requeued [failedRec] [stub7] stub7 failedRec
    (List.mem_singleton.mpr rfl) rfl
